import Mathlib

/-!
Verification of the nfc-card-detector campus identity card application.

This file gives a shallow embedding of the account-lifecycle core of the
repository (src/services/userService.ts, src/services/adminService.ts,
src/services/staffService.ts = src/unnamed part of adminService.ts,
src/services/authService.ts, src/services/imageService.ts,
src/contexts/AuthContext.tsx, src/app/user-profile.tsx) and proves or
refutes the frozen claims about it.

Modelling conventions:
- The Firestore `users` collection is a `List User`; `findOne`-style queries
  take the first matching element in list order, exactly as the source takes
  `querySnapshot.docs[0]`.
- Fallible external calls (credential creation, credential deletion, sign-out
  outcome, Firestore `setDoc`/`updateDoc`, image upload, Firebase
  `signInWithEmailAndPassword`) are driven by an explicit environment `Env`
  of outcomes, so every run of a flow is a pure function of the environment,
  the directory contents and the inputs.
- Thrown JS `Error` values are `Except String` with the thrown message;
  `try`/`catch` blocks are translated to `match` on the inner result.
- Optional TS fields (`nfcId?`, `canApproveStudents?`, `imageUrl?`,
  `imageBase64?`) are `Option`; JS truthiness of such a field is the
  `truthy`/`strTruthy` helpers below (`undefined` and `false`/`""` are falsy).
- Timestamps (`createdAt`/`updatedAt`) and the display-name fields are
  not needed by any claim about control flow and state, except that
  `FirstName`/`LastName` are carried through record construction verbatim.
- `console.log`/`console.error`/`console.warn` calls are invisible
  (logging only) and are not modelled.
-/

/-- `UserRole` from src/models/User.ts: `'admin' | 'staff' | 'student'`. -/
inductive UserRole
  | admin
  | staff
  | student
deriving DecidableEq, Repr

/-- `User` from src/models/User.ts (the directory record).  `nfcId`,
`imageUrl` and `canApproveStudents` are optional in the source and are
`Option` here; an absent field is `none`. -/
structure User where
  uid : String
  authUid : String
  email : String
  FirstName : String
  LastName : String
  cardNumber : String
  nfcId : Option String
  imageUrl : Option String
  role : UserRole
  department : String
  isActive : Bool
  isApproved : Bool
  canApproveStudents : Option Bool
deriving DecidableEq, Repr

/-- `CreateUserData` from src/models/User.ts (registration request). -/
structure CreateUserData where
  email : String
  password : String
  FirstName : String
  LastName : String
  cardNumber : String
  imageBase64 : Option String
  role : UserRole
  department : String
deriving DecidableEq, Repr

/-- JS truthiness of an optional boolean field: `undefined` and `false`
are falsy, `true` is truthy. -/
def truthy : Option Bool → Bool
  | some b => b
  | none => false

/-- JS truthiness of an optional string: `undefined` and `""` are falsy. -/
def strTruthy : Option String → Bool
  | some s => !(s = "")
  | none => false

/-- Outcome of `signInWithEmailAndPassword`: success carries the Firebase
uid (the identity token of the credential bound to the email); failure
carries the Firebase error `code` (e.g. `"auth/wrong-password"`) and
`message`. -/
inductive SignInResult
  | ok (uid : String)
  | fail (code : String) (message : String)
deriving DecidableEq, Repr

/-- Environment of external-call outcomes for one run.  Each field fixes
what the external collaborator (Firebase Auth / Firestore / Storage) does
when the corresponding call is made. -/
structure Env where
  /-- Outcome of `AuthService.register` = `createUserWithEmailAndPassword`
  plus `updateProfile`: the new credential's uid, or the thrown message
  (already mapped by `handleAuthError`).  An error means no credential
  was issued. -/
  credCreate : Except String String
  /-- Whether `firebaseUser.delete()` (rollback credential delete) succeeds. -/
  credDeleteOk : Bool
  /-- Whether `signOut(auth)` succeeds. -/
  signOutOk : Bool
  /-- Message thrown by `AuthService.logout` when `signOut` fails
  (already mapped by `handleAuthError`). -/
  signOutErrMsg : String
  /-- Outcome of `signInWithEmailAndPassword(auth, email, password)`. -/
  signIn : String → String → SignInResult
  /-- Whether the Firestore `setDoc` in `UserService.createUser` succeeds. -/
  setDocOk : Bool
  /-- Whether the profile-image upload (`ImageService.uploadBase64Image`)
  succeeds; on success the stored URL is `"url:" ++ uid`. -/
  uploadOk : Bool
  /-- Which document ids make Firestore `updateDoc` fail for infrastructure
  reasons (over and above the document not existing). -/
  updateFails : String → Bool
  /-- The fresh document id generated by `doc(collection(db, 'users'))`. -/
  freshUid : String

namespace UserService

/-- `UserService.getUserByCardNumber`: `null` for a falsy card number,
else the first record whose `cardNumber` matches. -/
def getUserByCardNumber (dir : List User) (cardNumber : String) : Option User :=
  if cardNumber = "" then none
  else dir.find? (fun u => u.cardNumber = cardNumber)

/-- `UserService.getUserByNfcId`: `null` for a falsy NFC id, else the
first record whose `nfcId` matches. -/
def getUserByNfcId (dir : List User) (nfcId : String) : Option User :=
  if nfcId = "" then none
  else dir.find? (fun u => u.nfcId = some nfcId)

/-- `UserService.getUserByUid`: Firestore `getDoc` by document id. -/
def getUserByUid (dir : List User) (uid : String) : Option User :=
  dir.find? (fun u => u.uid = uid)

/-- `UserService.getUserByAuthUid`: first record whose `authUid` matches. -/
def getUserByAuthUid (dir : List User) (authUid : String) : Option User :=
  dir.find? (fun u => u.authUid = authUid)

/-- The partial field set passed to `UserService.updateUser`
(`Partial<User>` restricted to the fields the repository actually
updates).  `none` means the field is not part of the update. -/
structure UserUpdate where
  isActive : Option Bool := none
  isApproved : Option Bool := none
  canApproveStudents : Option Bool := none
  nfcId : Option String := none
deriving DecidableEq, Repr

/-- Apply a partial update to one record (Firestore `updateDoc` merge). -/
def applyUpdate (u : User) (upd : UserUpdate) : User :=
  { u with
    isActive := (upd.isActive).getD u.isActive
    isApproved := (upd.isApproved).getD u.isApproved
    canApproveStudents :=
      match upd.canApproveStudents with
      | some b => some b
      | none => u.canApproveStudents
    nfcId :=
      match upd.nfcId with
      | some n => some n
      | none => u.nfcId }

/-- `UserService.updateUser`: Firestore `updateDoc` fails when the document
does not exist or the environment makes the write fail; otherwise the
matching record is updated in place.  Throws `'Failed to update user'`
on failure. -/
def updateUser (env : Env) (dir : List User) (uid : String) (upd : UserUpdate) :
    Except String (List User) :=
  if dir.any (fun u => u.uid = uid) && !(env.updateFails uid) then
    Except.ok (dir.map (fun u => if u.uid = uid then applyUpdate u upd else u))
  else
    Except.error "Failed to update user"

/-- `UserService.approveUser`: `updateUser(uid, { isApproved: true })`,
re-thrown as `'Failed to approve user'` on failure. -/
def approveUser (env : Env) (dir : List User) (uid : String) :
    Except String (List User) :=
  match updateUser env dir uid { isApproved := some true } with
  | Except.ok d => Except.ok d
  | Except.error _ => Except.error "Failed to approve user"

/-- `UserService.deactivateUser`: `updateUser(uid, { isActive: false })`,
re-thrown as `'Failed to deactivate user'` on failure. -/
def deactivateUser (env : Env) (dir : List User) (uid : String) :
    Except String (List User) :=
  match updateUser env dir uid { isActive := some false } with
  | Except.ok d => Except.ok d
  | Except.error _ => Except.error "Failed to deactivate user"

/-- `UserService.updateStaffApprovalPermission`: sets `canApproveStudents`,
re-thrown as `'Failed to update staff permissions'` on failure. -/
def updateStaffApprovalPermission (env : Env) (dir : List User) (uid : String)
    (canApproveStudents : Bool) : Except String (List User) :=
  match updateUser env dir uid { canApproveStudents := some canApproveStudents } with
  | Except.ok d => Except.ok d
  | Except.error _ => Except.error "Failed to update staff permissions"

/-- `UserService.assignNfcId`: looks up the current holder of `nfcId`; if a
different record holds it, throws `'NFC ID already assigned to another
user'`; else updates the record.  The surrounding `catch` replaces EVERY
inner error (the duplicate error included) with
`'Failed to assign NFC ID'`. -/
def assignNfcId (env : Env) (dir : List User) (uid : String) (nfcId : String) :
    Except String (List User) :=
  let inner : Except String (List User) :=
    match getUserByNfcId dir nfcId with
    | some existingUser =>
      if !(existingUser.uid = uid) then
        Except.error "NFC ID already assigned to another user"
      else
        updateUser env dir uid { nfcId := some nfcId }
    | none => updateUser env dir uid { nfcId := some nfcId }
  match inner with
  | Except.ok d => Except.ok d
  | Except.error _ => Except.error "Failed to assign NFC ID"

/-- `UserService.createUser`: duplicate-card check, optional image upload
(failure tolerated), then `setDoc` of the new record.  Returns the new
directory contents together with the object the function returns to its
caller — in the source the returned object literal (lines 76–90) omits
`canApproveStudents` and `nfcId`, while the stored document sets
`canApproveStudents: false` for staff.  The surrounding `catch` re-throws
`'Card number already exists'` verbatim and wraps any other failure as
`'Failed to create user profile'`. -/
def createUser (env : Env) (dir : List User) (authUid : String)
    (userData : CreateUserData) : Except String (List User × User) :=
  match getUserByCardNumber dir userData.cardNumber with
  | some _ => Except.error "Card number already exists"
  | none =>
    let uid := env.freshUid
    let imageUrl : Option String :=
      match userData.imageBase64 with
      | some _ => if env.uploadOk then some ("url:" ++ uid) else none
      | none => none
    if env.setDocOk then
      let stored : User :=
        { uid := uid
          authUid := authUid
          email := userData.email
          FirstName := userData.FirstName
          LastName := userData.LastName
          cardNumber := userData.cardNumber
          nfcId := none
          imageUrl := imageUrl
          role := userData.role
          department := userData.department
          isActive := true
          isApproved := userData.role = UserRole.admin
          canApproveStudents :=
            if userData.role = UserRole.staff then some false else none }
      let returned : User := { stored with canApproveStudents := none }
      Except.ok (dir ++ [stored], returned)
    else
      Except.error "Failed to create user profile"

end UserService

namespace AuthService

/-- `error.code.startsWith('auth/')` from `AuthService.login`, written as a
prefix test on the character list so that it evaluates by computation. -/
def codeStartsWithAuth (code : String) : Bool :=
  "auth/".data.isPrefixOf code.data

/-- `AuthService.handleAuthError`: maps a Firebase error code to a user
message; the default branch keeps a non-empty original message. -/
def handleAuthErrorMessage (code message : String) : String :=
  if code = "auth/email-already-in-use" then "This email is already registered"
  else if code = "auth/invalid-email" then "Invalid email address"
  else if code = "auth/operation-not-allowed" then "Operation not allowed"
  else if code = "auth/weak-password" then
    "Password is too weak. Please use at least 6 characters"
  else if code = "auth/user-disabled" then "This account has been disabled"
  else if code = "auth/user-not-found" then "No account found with this email"
  else if code = "auth/wrong-password" then "Incorrect password"
  else if code = "auth/invalid-credential" then "Invalid email or password"
  else if code = "auth/too-many-requests" then
    "Too many failed attempts. Please try again later"
  else if message = "" then "An error occurred during authentication"
  else message

/-- `AuthService.login`: resolves the card number to a record, then signs in
with the record's email.  An unknown card number throws
`'Invalid card number or password'`; the `catch` re-throws that message
as-is, replaces any Firebase `auth/…`-coded error with the same generic
message, and passes anything else through `handleAuthError`.  Success
returns the Firebase user's uid (identity token). -/
def login (env : Env) (dir : List User) (cardNumber password : String) :
    Except String String :=
  match UserService.getUserByCardNumber dir cardNumber with
  | none => Except.error "Invalid card number or password"
  | some user =>
    match env.signIn user.email password with
    | SignInResult.ok uid => Except.ok uid
    | SignInResult.fail code message =>
      if codeStartsWithAuth code then
        Except.error "Invalid card number or password"
      else
        Except.error (handleAuthErrorMessage code message)

/-- `AuthService.logout` = `signOut(auth)`, with failure mapped through
`handleAuthError` (modelled as the pre-mapped `env.signOutErrMsg`). -/
def logout (env : Env) : Except String Unit :=
  if env.signOutOk then Except.ok () else Except.error env.signOutErrMsg

end AuthService

/-- Externally visible side calls of an AuthContext flow, listed in the
order the source awaits them.  `credCreate` is the Firebase credential
creation, `credDelete` the rollback `firebaseUser.delete()`, `signOut`
a `signOut(auth)` attempt. -/
inductive AuthAction
  | credCreate
  | credDelete
  | signOut
deriving DecidableEq, Repr

deriving instance DecidableEq for Except

namespace AuthContext

/-- Result of one run of `AuthContext.login` (src/contexts/AuthContext.tsx,
lines 54–87): the credential-service actions performed, in source order
(every listed action completes before the result is surfaced), and the
outcome. -/
structure LoginOutcome where
  trace : List AuthAction
  result : Except String User
deriving DecidableEq, Repr

/-- `AuthContext.login`: `AuthService.login`, then the Firestore lookup by
auth uid, then the `isActive` / `isApproved` gates, each of which signs
out before throwing.  If `signOut` itself fails, its error propagates
through the outer `catch` instead. -/
def login (env : Env) (dir : List User) (cardNumber password : String) :
    LoginOutcome :=
  match AuthService.login env dir cardNumber password with
  | Except.error e => { trace := [], result := Except.error e }
  | Except.ok uid =>
    match UserService.getUserByAuthUid dir uid with
    | none => { trace := [], result := Except.error "User profile not found" }
    | some userData =>
      if !userData.isActive then
        { trace := [AuthAction.signOut]
          result :=
            if env.signOutOk then
              Except.error "Your account has been deactivated"
            else
              Except.error env.signOutErrMsg }
      else if !userData.isApproved then
        { trace := [AuthAction.signOut]
          result :=
            if env.signOutOk then
              Except.error "Your account is pending approval"
            else
              Except.error env.signOutErrMsg }
      else
        { trace := [], result := Except.ok userData }

/-- Result of one run of `AuthContext.register` (src/contexts/AuthContext.tsx,
lines 89–132). `credCreated` records whether a credential was created at
any point of the run; `credentialExists` whether one still exists when
the run ends (created and not successfully deleted). -/
structure RegisterOutcome where
  trace : List AuthAction
  result : Except String User
  dir : List User
  credCreated : Bool
  credentialExists : Bool
deriving DecidableEq, Repr

/-- `AuthContext.register`: step 1 creates the Firebase credential
(`AuthService.register`); step 2 writes the Firestore record
(`UserService.createUser`, which itself performs the duplicate-card
check).  On a step-2 failure the `catch` deletes the credential and, if
that delete fails, attempts a sign-out; both compensation failures are
only logged, and the step-2 error is re-thrown unchanged. -/
def register (env : Env) (dir : List User) (userData : CreateUserData) :
    RegisterOutcome :=
  match env.credCreate with
  | Except.error e =>
    { trace := [AuthAction.credCreate], result := Except.error e, dir := dir
      credCreated := false, credentialExists := false }
  | Except.ok token =>
    match UserService.createUser env dir token userData with
    | Except.ok (dir2, newUser) =>
      { trace := [AuthAction.credCreate], result := Except.ok newUser, dir := dir2
        credCreated := true, credentialExists := true }
    | Except.error e =>
      if env.credDeleteOk then
        { trace := [AuthAction.credCreate, AuthAction.credDelete]
          result := Except.error e, dir := dir
          credCreated := true, credentialExists := false }
      else
        { trace := [AuthAction.credCreate, AuthAction.credDelete, AuthAction.signOut]
          result := Except.error e, dir := dir
          credCreated := true, credentialExists := true }

end AuthContext

namespace AdminService

/-- One step of a bulk loop: accumulated `(success, failed)` counters and
the current directory contents. -/
structure BulkAcc where
  success : Nat
  failed : Nat
  dir : List User
deriving DecidableEq, Repr

/-- The per-id async closure of `AdminService.approveBulk`: approve the id,
incrementing `success`, with any per-id failure caught inside the closure
and counted in `failed`. -/
def approveStep (env : Env) (acc : BulkAcc) (uid : String) : BulkAcc :=
  match UserService.approveUser env acc.dir uid with
  | Except.ok d2 => { acc with success := acc.success + 1, dir := d2 }
  | Except.error _ => { acc with failed := acc.failed + 1 }

/-- `AdminService.approveBulk`: maps `UserService.approveUser` over the ids,
counting per-id successes and failures; a per-id failure only increments
`failed`.  The source issues the closures with `Promise.all`; each id
touches only its own document, so the concurrent run is linearized here
as a left fold. -/
def approveBulk (env : Env) (dir : List User) (uids : List String) :
    BulkAcc :=
  uids.foldl (approveStep env) { success := 0, failed := 0, dir := dir }

/-- `AdminService.grantApprovalRights`: requires the target to exist and be
staff, then sets `canApproveStudents := true`.  The `catch` re-throws
`error.message` (all inner messages are non-empty, so they survive). -/
def grantApprovalRights (env : Env) (dir : List User) (staffUid : String) :
    Except String (List User) :=
  match UserService.getUserByUid dir staffUid with
  | none => Except.error "User not found"
  | some user =>
    if !(user.role = UserRole.staff) then
      Except.error "Only staff members can be granted approval rights"
    else
      UserService.updateStaffApprovalPermission env dir staffUid true

/-- `AdminService.revokeApprovalRights`: same checks, sets
`canApproveStudents := false`. -/
def revokeApprovalRights (env : Env) (dir : List User) (staffUid : String) :
    Except String (List User) :=
  match UserService.getUserByUid dir staffUid with
  | none => Except.error "User not found"
  | some user =>
    if !(user.role = UserRole.staff) then
      Except.error "Only staff members have approval rights"
    else
      UserService.updateStaffApprovalPermission env dir staffUid false

/-- `AdminService.toggleApprovalRights`: same checks, flips the JS-truthy
value of `canApproveStudents` and returns the new value. -/
def toggleApprovalRights (env : Env) (dir : List User) (staffUid : String) :
    Except String (Bool × List User) :=
  match UserService.getUserByUid dir staffUid with
  | none => Except.error "User not found"
  | some user =>
    if !(user.role = UserRole.staff) then
      Except.error "Only staff members can have approval rights"
    else
      let newValue := !(truthy user.canApproveStudents)
      match UserService.updateStaffApprovalPermission env dir staffUid newValue with
      | Except.ok d2 => Except.ok (newValue, d2)
      | Except.error e => Except.error e

/-- `AdminService.validateUserCanApprove` (the pure `canApprove` policy
function): admins always, staff only with `canApproveStudents === true`,
students never. -/
def validateUserCanApprove : Option User → Bool
  | none => false
  | some user =>
    if user.role = UserRole.admin then true
    else if user.role = UserRole.staff then user.canApproveStudents = some true
    else false

end AdminService

namespace StaffService

/-- `StaffService.approveStudent`: staff-role check, `canApproveStudents`
truthiness check, target lookup, target-role check, same-department
check, then `UserService.approveUser`.  The `catch` re-throws
`error.message` (all inner messages are non-empty). -/
def approveStudent (env : Env) (dir : List User) (staffUser : User)
    (studentUid : String) : Except String (List User) :=
  if !(staffUser.role = UserRole.staff) then
    Except.error "Only staff members can approve students"
  else if !(truthy staffUser.canApproveStudents) then
    Except.error "You do not have permission to approve students"
  else
    match UserService.getUserByUid dir studentUid with
    | none => Except.error "Student not found"
    | some student =>
      if !(student.role = UserRole.student) then
        Except.error "Can only approve students"
      else if !(student.department = staffUser.department) then
        Except.error "Can only approve students in your department"
      else
        UserService.approveUser env dir studentUid

/-- The set (as a list of uids) of students in the staff member's
department, as computed by `approveStudentsBulk` from
`getUsersByRole('student')` filtered by department. -/
def departmentStudentIds (dir : List User) (staffUser : User) : List String :=
  ((dir.filter (fun s => s.role = UserRole.student)).filter
    (fun s => s.department = staffUser.department)).map (fun s => s.uid)

/-- The per-id async closure of `StaffService.approveStudentsBulk`: an id
outside the staff member's department is skipped and counted as failed;
otherwise the id is approved, with any per-id failure caught inside the
closure and counted in `failed`. -/
def staffApproveStep (env : Env) (deptIds : List String)
    (acc : AdminService.BulkAcc) (uid : String) : AdminService.BulkAcc :=
  if !(deptIds.contains uid) then
    { acc with failed := acc.failed + 1 }
  else
    match UserService.approveUser env acc.dir uid with
    | Except.ok d2 => { acc with success := acc.success + 1, dir := d2 }
    | Except.error _ => { acc with failed := acc.failed + 1 }

/-- `StaffService.approveStudentsBulk`: an upfront `canApproveStudents`
truthiness check aborts the whole batch; otherwise each id is approved in
its own failure domain, with ids outside the staff member's department
counted as failures without calling the per-id operation.  As in
`approveBulk`, the `Promise.all` run is linearized as a left fold. -/
def approveStudentsBulk (env : Env) (dir : List User) (staffUser : User)
    (studentUids : List String) : Except String AdminService.BulkAcc :=
  if !(truthy staffUser.canApproveStudents) then
    Except.error "You do not have permission to approve students"
  else
    Except.ok (studentUids.foldl
      (staffApproveStep env (departmentStudentIds dir staffUser))
      { success := 0, failed := 0, dir := dir })

end StaffService

/-- Which lookups a run of the kiosk profile screen performed. -/
inductive Lookup
  | byNfc (nfcId : String)
  | byCard (cardNumber : String)
deriving DecidableEq, Repr

namespace UserProfile

/-- `DEFAULT_CARD_NUMBER` from src/app/user-profile.tsx. -/
def DEFAULT_CARD_NUMBER : String := "Admin01"

/-- Result of one run of `loadUser`: the lookups performed in order, the
resolved record and the error message shown (if any). -/
structure LoadResult where
  lookups : List Lookup
  user : Option User
  errMsg : Option String
deriving DecidableEq, Repr

/-- `UserProfileScreen.loadUser` (src/app/user-profile.tsx lines 27–59):
a truthy route NFC id is resolved by NFC lookup only; otherwise the
truthy route card number — or, failing that, `DEFAULT_CARD_NUMBER` — is
resolved by card-number lookup. -/
def loadUser (dir : List User) (routeCardNumber routeNfcId : Option String) :
    LoadResult :=
  if strTruthy routeNfcId then
    let n := routeNfcId.getD ""
    match UserService.getUserByNfcId dir n with
    | some profile =>
      { lookups := [Lookup.byNfc n], user := some profile, errMsg := none }
    | none =>
      { lookups := [Lookup.byNfc n], user := none
        errMsg := some ("No user found for NFC ID " ++ n) }
  else
    let cardToUse :=
      if strTruthy routeCardNumber then routeCardNumber.getD ""
      else DEFAULT_CARD_NUMBER
    match UserService.getUserByCardNumber dir cardToUse with
    | some profile =>
      { lookups := [Lookup.byCard cardToUse], user := some profile
        errMsg := none }
    | none =>
      { lookups := [Lookup.byCard cardToUse], user := none
        errMsg := some ("No user found for card " ++ cardToUse) }

end UserProfile

/-!  ## Shared helper definitions for the claim theorems  -/

/-- The directory contents after a run that returned `r`.  In every embedded
operation an `Except.error` run made no surviving Firestore write (each
write either is the operation's last step or fails the run), so an error
leaves the directory as it was. -/
def finalDir (dir : List User) (r : Except String (List User)) : List User :=
  match r with
  | Except.ok d => d
  | Except.error _ => dir

/-- Whether a Firestore `updateDoc` on document `uid` succeeds in `dir`
under `env`: the document must exist and the write must not fail. -/
def approveOk (env : Env) (dir : List User) (uid : String) : Bool :=
  dir.any (fun u => u.uid = uid) && !(env.updateFails uid)

/-- A fully successful environment: every external call succeeds, the fresh
document id is `"doc1"`, every sign-in yields uid `"a1"`. -/
def envW : Env :=
  { credCreate := Except.ok "tok1"
    credDeleteOk := true
    signOutOk := true
    signOutErrMsg := "An error occurred during authentication"
    signIn := fun _ _ => SignInResult.ok "a1"
    setDocOk := true
    uploadOk := true
    updateFails := fun _ => false
    freshUid := "doc1" }

/-- Sample admin record holding the kiosk default card number `"Admin01"`. -/
def adminUser : User :=
  { uid := "u0", authUid := "a0", email := "admin@u.edu", FirstName := "Ada"
    LastName := "Admin", cardNumber := "Admin01", nfcId := none
    imageUrl := none, role := UserRole.admin, department := "IT"
    isActive := true, isApproved := true, canApproveStudents := none }

/-- Sample student record holding NFC id `"N1"`. -/
def holderA : User :=
  { uid := "u1", authUid := "a1", email := "h@u.edu", FirstName := "Hanna"
    LastName := "Holder", cardNumber := "C-001", nfcId := some "N1"
    imageUrl := none, role := UserRole.student, department := "CS"
    isActive := true, isApproved := true, canApproveStudents := none }

/-- Sample student record without an NFC id. -/
def userB : User :=
  { uid := "u2", authUid := "a2", email := "b@u.edu", FirstName := "Ben"
    LastName := "Bee", cardNumber := "C-002", nfcId := none
    imageUrl := none, role := UserRole.student, department := "CS"
    isActive := true, isApproved := false, canApproveStudents := none }

/-- Sample staff registration request. -/
def staffReq : CreateUserData :=
  { email := "s@u.edu", password := "pw123456", FirstName := "Sam"
    LastName := "Staff", cardNumber := "C-100", imageBase64 := none
    role := UserRole.staff, department := "CS" }

/-- The record `UserService.createUser envW [] "a1" staffReq` stores. -/
def c8stored : User :=
  { uid := "doc1", authUid := "a1", email := "s@u.edu", FirstName := "Sam"
    LastName := "Staff", cardNumber := "C-100", nfcId := none
    imageUrl := none, role := UserRole.staff, department := "CS"
    isActive := true, isApproved := false, canApproveStudents := some false }

/-- The object the same call returns to its caller (no `canApproveStudents`). -/
def c8ret : User := { c8stored with canApproveStudents := none }

/-- Registration request whose card number duplicates `holderA`. -/
def dupReq : CreateUserData :=
  { email := "d@u.edu", password := "pw123456", FirstName := "Dup"
    LastName := "Dee", cardNumber := "C-001", imageBase64 := none
    role := UserRole.student, department := "CS" }

/-- Environment in which the Firestore write fails and the rollback
credential delete fails too (forcing the secondary sign-out
compensation). -/
def envFailWrite : Env := { envW with setDocOk := false, credDeleteOk := false }

/-- Environment whose credential check signs the caller in as `userB`
(identity token `"a2"`). -/
def envLogin : Env := { envW with signIn := fun _ _ => SignInResult.ok "a2" }

/-- Environment whose credential check fails with the wrong-password code. -/
def envWrongPw : Env :=
  { envW with signIn := fun _ _ => SignInResult.fail "auth/wrong-password" "Incorrect" }

/-- Staff member of department CS with approval rights. -/
def staffX : User :=
  { uid := "s1", authUid := "as1", email := "x@u.edu", FirstName := "Xena"
    LastName := "Staff", cardNumber := "C-200", nfcId := none
    imageUrl := none, role := UserRole.staff, department := "CS"
    isActive := true, isApproved := true, canApproveStudents := some true }

/-- Unapproved student of department EE. -/
def studentY : User :=
  { uid := "y1", authUid := "ay1", email := "y@u.edu", FirstName := "Yara"
    LastName := "Young", cardNumber := "C-300", nfcId := none
    imageUrl := none, role := UserRole.student, department := "EE"
    isActive := true, isApproved := false, canApproveStudents := none }

/-- Unapproved CS student, managed by `staffX`. -/
def studentC1 : User :=
  { uid := "c1", authUid := "ac1", email := "c1@u.edu", FirstName := "Cara"
    LastName := "One", cardNumber := "C-301", nfcId := none
    imageUrl := none, role := UserRole.student, department := "CS"
    isActive := true, isApproved := false, canApproveStudents := none }

/-- Second unapproved CS student. -/
def studentC2 : User :=
  { uid := "c2", authUid := "ac2", email := "c2@u.edu", FirstName := "Cody"
    LastName := "Two", cardNumber := "C-302", nfcId := none
    imageUrl := none, role := UserRole.student, department := "CS"
    isActive := true, isApproved := false, canApproveStudents := none }

/-- Directory for the bulk witness: one CS staff member with approval
rights, two CS students and one EE student. -/
def dirW5 : List User := [staffX, studentC1, studentC2, studentY]

/-- The three failing-login classes of the login contract: unknown card
number; wrong secret (Firebase code `auth/wrong-password`); any
authentication-category (`auth/…`-coded) credential-service error. -/
def loginFailureClass (env : Env) (dir : List User) (card pw : String) : Prop :=
  UserService.getUserByCardNumber dir card = none
  ∨ (∃ u m, UserService.getUserByCardNumber dir card = some u
      ∧ env.signIn u.email pw = SignInResult.fail "auth/wrong-password" m)
  ∨ (∃ u code m, UserService.getUserByCardNumber dir card = some u
      ∧ env.signIn u.email pw = SignInResult.fail code m
      ∧ AuthService.codeStartsWithAuth code = true)

/-- Common shape of the two bulk per-id closures: a gate decides whether the
id is attempted at all (counted as failed otherwise); an attempted id is
approved with its failure isolated. -/
def gatedStep (env : Env) (gate : String → Bool)
    (acc : AdminService.BulkAcc) (uid : String) : AdminService.BulkAcc :=
  if gate uid then
    match UserService.approveUser env acc.dir uid with
    | Except.ok d2 => { acc with success := acc.success + 1, dir := d2 }
    | Except.error _ => { acc with failed := acc.failed + 1 }
  else { acc with failed := acc.failed + 1 }

/-- The accumulator produced by the batch loop of
`StaffService.approveStudentsBulk` once the upfront permission check has
passed. -/
def staffBulkRun (env : Env) (dir : List User) (staffUser : User)
    (uids : List String) : AdminService.BulkAcc :=
  uids.foldl
    (StaffService.staffApproveStep env (StaffService.departmentStudentIds dir staffUser))
    { success := 0, failed := 0, dir := dir }

/-!  ## C9 — kiosk resolution order  -/

/-- C9 (counterexample): the claim says that when neither an NFC id nor a
card number is presented, no resolution occurs.  On the code, `loadUser`
with no route parameters falls back to `DEFAULT_CARD_NUMBER = "Admin01"`,
performs a card-number lookup, and here even resolves a record. -/
theorem loadUser_no_input_counterexample :
    (UserProfile.loadUser [adminUser] none none).lookups = [Lookup.byCard "Admin01"]
    ∧ (UserProfile.loadUser [adminUser] none none).user = some adminUser
    ∧ ¬ (UserProfile.loadUser [adminUser] none none).lookups = [] := by
  decide

/-- C9 (amended): an NFC-id match is preferred — when a truthy NFC id is
presented only the NFC lookup runs; the card-number lookup runs only when
no truthy NFC id is presented; and when neither a truthy NFC id nor a
truthy card number is presented, the screen still resolves, using the
default card number `"Admin01"`. -/
theorem loadUser_resolution_order (dir : List User) (cn ni : Option String) :
    (strTruthy ni = true →
      (UserProfile.loadUser dir cn ni).lookups = [Lookup.byNfc (ni.getD "")]
      ∧ (UserProfile.loadUser dir cn ni).user
          = UserService.getUserByNfcId dir (ni.getD ""))
    ∧ (strTruthy ni = false → strTruthy cn = true →
      (UserProfile.loadUser dir cn ni).lookups = [Lookup.byCard (cn.getD "")]
      ∧ (UserProfile.loadUser dir cn ni).user
          = UserService.getUserByCardNumber dir (cn.getD ""))
    ∧ (strTruthy ni = false → strTruthy cn = false →
      (UserProfile.loadUser dir cn ni).lookups
          = [Lookup.byCard UserProfile.DEFAULT_CARD_NUMBER]
      ∧ (UserProfile.loadUser dir cn ni).user
          = UserService.getUserByCardNumber dir UserProfile.DEFAULT_CARD_NUMBER) := by
  refine ⟨?_, ?_, ?_⟩
  · intro h
    unfold UserProfile.loadUser
    rw [h]
    cases hm : UserService.getUserByNfcId dir (ni.getD "") <;> simp [hm]
  · intro h hc
    unfold UserProfile.loadUser
    rw [h, hc]
    cases hm : UserService.getUserByCardNumber dir (cn.getD "") <;> simp [hm]
  · intro h hc
    unfold UserProfile.loadUser
    rw [h, hc]
    cases hm : UserService.getUserByCardNumber dir UserProfile.DEFAULT_CARD_NUMBER <;>
      simp [hm]

/-- C9 (witness): the amended theorem applied at a concrete input with an
NFC id presented. -/
theorem loadUser_resolution_order_witness :
    (UserProfile.loadUser [holderA] (some "C-002") (some "N1")).lookups
      = [Lookup.byNfc "N1"]
    ∧ (UserProfile.loadUser [holderA] (some "C-002") (some "N1")).user
      = some holderA := by
  have h := (loadUser_resolution_order [holderA] (some "C-002") (some "N1")).1 (by decide)
  exact ⟨h.1, by rw [h.2]; decide⟩

/-!  ## C6 — NFC id uniqueness on assignment  -/

/-- C6 (counterexample): the claim says assigning an nfcId held by a
different record fails with the NfcAlreadyAssigned error.  On the code the
assignment does fail, but the `catch` in `UserService.assignNfcId` replaces
the inner `'NFC ID already assigned to another user'` error with the
generic `'Failed to assign NFC ID'`, so the surfaced error is not the
NfcAlreadyAssigned one. -/
theorem assignNfcId_masked_error_counterexample :
    UserService.assignNfcId envW [holderA, userB] "u2" "N1"
      = Except.error "Failed to assign NFC ID"
    ∧ ¬ UserService.assignNfcId envW [holderA, userB] "u2" "N1"
      = Except.error "NFC ID already assigned to another user" := by
  decide

/-- C6 (amended): assigning an nfcId already held by a different record
fails — surfaced as the generic `'Failed to assign NFC ID'` message,
because the catch-all replaces the internal NfcAlreadyAssigned error —
and the directory (hence the target record) is unchanged; assigning an
nfcId to the record that already holds it succeeds (overwrite with the
same value), provided the write itself does not fail. -/
theorem assignNfcId_uniqueness (env : Env) (dir : List User) (uid nfcId : String) :
    (∀ holder, UserService.getUserByNfcId dir nfcId = some holder →
      ¬ holder.uid = uid →
      UserService.assignNfcId env dir uid nfcId
        = Except.error "Failed to assign NFC ID"
      ∧ finalDir dir (UserService.assignNfcId env dir uid nfcId) = dir)
    ∧ (∀ holder, UserService.getUserByNfcId dir nfcId = some holder →
      holder.uid = uid → env.updateFails uid = false →
      UserService.assignNfcId env dir uid nfcId
        = Except.ok (dir.map (fun u =>
            if u.uid = uid then { u with nfcId := some nfcId } else u))) := by
  constructor
  · intro holder hfind hne
    have hres : UserService.assignNfcId env dir uid nfcId
        = Except.error "Failed to assign NFC ID" := by
      unfold UserService.assignNfcId
      rw [hfind]
      simp [hne]
    exact ⟨hres, by rw [hres]; rfl⟩
  · intro holder hfind heq hupd
    have hmem : holder ∈ dir := by
      unfold UserService.getUserByNfcId at hfind
      by_cases hn : nfcId = ""
      · rw [if_pos hn] at hfind
        cases hfind
      · rw [if_neg hn] at hfind
        exact List.mem_of_find?_eq_some hfind
    have hany : dir.any (fun u => u.uid = uid) = true := by
      rw [List.any_eq_true]
      exact ⟨holder, hmem, by simp [heq]⟩
    unfold UserService.assignNfcId
    rw [hfind]
    simp only [heq]
    unfold UserService.updateUser
    simp [hany, hupd]
    intro a _
    split <;> rfl

/-- C6 (witness): the amended theorem applied at a concrete directory, both
for the held-by-another failure and the same-holder success. -/
theorem assignNfcId_uniqueness_witness :
    UserService.assignNfcId envW [holderA, userB] "u2" "N1"
      = Except.error "Failed to assign NFC ID"
    ∧ UserService.assignNfcId envW [holderA, userB] "u1" "N1"
      = Except.ok ([holderA, userB].map (fun u =>
          if u.uid = "u1" then { u with nfcId := some "N1" } else u)) := by
  have h1 := (assignNfcId_uniqueness envW [holderA, userB] "u2" "N1").1 holderA
    (by decide) (by decide)
  have h2 := (assignNfcId_uniqueness envW [holderA, userB] "u1" "N1").2 holderA
    (by decide) (by decide) (by decide)
  exact ⟨h1.1, h2⟩

/-!  ## C8 — creation defaults of the stored and returned record  -/

/-- C8 (counterexample): the claim says the returned and stored record
both have `canApproveStudents = false` when the role is staff.  On the
code a successful staff creation stores `canApproveStudents: false` but
the object literal returned to the caller omits the field entirely. -/
theorem createUser_returned_omits_canApprove :
    UserService.createUser envW [] "a1" staffReq = Except.ok ([c8stored], c8ret)
    ∧ staffReq.role = UserRole.staff
    ∧ c8stored.canApproveStudents = some false
    ∧ c8ret.canApproveStudents = none
    ∧ ¬ c8ret.canApproveStudents = some false := by
  decide

/-- C8 (amended): every successful account creation appends one stored
record with `isActive = true`, `isApproved` exactly when the role is
admin, `canApproveStudents = false` for staff (absent for other roles)
and the requested `cardNumber`; the returned record agrees on
`isActive`, `isApproved` and `cardNumber` but omits `canApproveStudents`
(it is absent, not `false`). -/
theorem createUser_lifecycle_defaults
    (env : Env) (dir : List User) (authUid : String) (d : CreateUserData)
    (dir2 : List User) (ret : User)
    (h : UserService.createUser env dir authUid d = Except.ok (dir2, ret)) :
    ∃ stored : User,
      dir2 = dir ++ [stored]
      ∧ stored.isActive = true
      ∧ (stored.isApproved = true ↔ d.role = UserRole.admin)
      ∧ (d.role = UserRole.staff → stored.canApproveStudents = some false)
      ∧ (¬ d.role = UserRole.staff → stored.canApproveStudents = none)
      ∧ stored.cardNumber = d.cardNumber
      ∧ ret.isActive = true
      ∧ (ret.isApproved = true ↔ d.role = UserRole.admin)
      ∧ ret.cardNumber = d.cardNumber
      ∧ ret.canApproveStudents = none := by
  unfold UserService.createUser at h
  rcases hc : UserService.getUserByCardNumber dir d.cardNumber with _ | u <;> rw [hc] at h
  · by_cases hsd : env.setDocOk
    · simp only [hsd, if_true] at h
      rw [Except.ok.injEq, Prod.mk.injEq] at h
      obtain ⟨hdir, hret⟩ := h
      refine ⟨_, hdir.symm, rfl, ?_, ?_, ?_, rfl, ?_, ?_, ?_, ?_⟩
      · simp
      · intro hs
        simp [hs]
      · intro hs
        simp [hs]
      · rw [← hret]
      · rw [← hret]
        simp
      · rw [← hret]
      · rw [← hret]
    · simp only [hsd] at h
      simp at h
  · simp at h

/-- C8 (witness): the amended theorem applied at the concrete staff
registration; the stored record carries `canApproveStudents = some false`
while the returned one carries `none`. -/
theorem createUser_lifecycle_defaults_witness :
    c8stored.isActive = true
    ∧ (c8stored.isApproved = true ↔ staffReq.role = UserRole.admin)
    ∧ c8ret.canApproveStudents = none := by
  obtain ⟨stored, h1, hact, happr, _hstaff, _hnon, _hcard, _hra, _hrapp, _hrc, hrcan⟩ :=
    createUser_lifecycle_defaults envW [] "a1" staffReq [c8stored] c8ret (by decide)
  have hs : c8stored = stored := by simpa using h1
  exact ⟨hs ▸ hact, hs ▸ happr, hrcan⟩

/-!  ## C1 — duplicate card number at registration  -/

/-- C1 (counterexample): the claim says the duplicate check is performed
before any credential is created and registration performs no further
action after detecting the duplicate.  On the code, `AuthContext.register`
creates the Firebase credential first; the duplicate check only runs
inside `UserService.createUser`, so a duplicate-card run creates a
credential and then has to delete it again. -/
theorem register_duplicate_creates_credential_counterexample :
    (AuthContext.register envW [holderA] dupReq).credCreated = true
    ∧ (AuthContext.register envW [holderA] dupReq).trace
        = [AuthAction.credCreate, AuthAction.credDelete]
    ∧ (AuthContext.register envW [holderA] dupReq).result
        = Except.error "Card number already exists" := by
  decide

/-- C1 (amended): a registration whose `cardNumber` already exists fails
with the duplicate-card-number error and leaves the directory unchanged;
however the credential is created before the duplicate check (which runs
inside the directory-write step) and is then deleted by the rollback, so
no credential remains whenever the rollback delete succeeds. -/
theorem register_duplicate_card (env : Env) (dir : List User)
    (d : CreateUserData) (u : User) (token : String)
    (hdup : UserService.getUserByCardNumber dir d.cardNumber = some u)
    (hcred : env.credCreate = Except.ok token) :
    (AuthContext.register env dir d).result
      = Except.error "Card number already exists"
    ∧ (AuthContext.register env dir d).dir = dir
    ∧ (AuthContext.register env dir d).credCreated = true
    ∧ AuthAction.credDelete ∈ (AuthContext.register env dir d).trace
    ∧ (env.credDeleteOk = true →
        (AuthContext.register env dir d).credentialExists = false) := by
  have hcu : UserService.createUser env dir token d
      = Except.error "Card number already exists" := by
    unfold UserService.createUser
    rw [hdup]
  unfold AuthContext.register
  simp only [hcred]
  simp only [hcu]
  by_cases hdel : env.credDeleteOk <;> simp [hdel]

/-- C1 (witness): the amended theorem applied at the concrete duplicate
registration. -/
theorem register_duplicate_card_witness :
    (AuthContext.register envW [holderA] dupReq).result
      = Except.error "Card number already exists"
    ∧ (AuthContext.register envW [holderA] dupReq).dir = [holderA]
    ∧ AuthAction.credDelete ∈ (AuthContext.register envW [holderA] dupReq).trace := by
  have h := register_duplicate_card envW [holderA] dupReq holderA "tok1"
    (by decide) (by decide)
  exact ⟨h.1, h.2.1, h.2.2.2.1⟩

/-!  ## C2 — rollback surfaces the primary error  -/

/-- C2: when the credential was created and the directory write fails, the
rollback runs — the credential delete is attempted; if it fails a
sign-out is attempted — and the error surfaced to the caller is, for
every value of the compensation outcomes, exactly the original
directory-write failure. -/
theorem register_rollback_preserves_primary_error (env : Env) (dir : List User)
    (d : CreateUserData) (token : String)
    (hcred : env.credCreate = Except.ok token)
    (hnodup : UserService.getUserByCardNumber dir d.cardNumber = none)
    (hwrite : env.setDocOk = false) :
    (AuthContext.register env dir d).result
      = Except.error "Failed to create user profile"
    ∧ AuthAction.credDelete ∈ (AuthContext.register env dir d).trace
    ∧ (env.credDeleteOk = false →
        AuthAction.signOut ∈ (AuthContext.register env dir d).trace)
    ∧ (env.credDeleteOk = true →
        (AuthContext.register env dir d).credentialExists = false)
    ∧ (AuthContext.register env dir d).dir = dir := by
  have hcu : UserService.createUser env dir token d
      = Except.error "Failed to create user profile" := by
    unfold UserService.createUser
    rw [hnodup]
    simp [hwrite]
  unfold AuthContext.register
  simp only [hcred]
  simp only [hcu]
  by_cases hdel : env.credDeleteOk <;> simp [hdel]

/-- C2 (witness): the theorem applied in the environment where both the
directory write and the rollback delete fail: the sign-out is attempted
and the caller still sees only the directory-write failure. -/
theorem register_rollback_preserves_primary_error_witness :
    (AuthContext.register envFailWrite [] dupReq).result
      = Except.error "Failed to create user profile"
    ∧ AuthAction.signOut ∈ (AuthContext.register envFailWrite [] dupReq).trace := by
  have h := register_rollback_preserves_primary_error envFailWrite [] dupReq "tok1"
    (by decide) (by decide) (by decide)
  exact ⟨h.1, h.2.2.1 (by decide)⟩

/-!  ## C3 — blocked accounts are signed out before the error surfaces  -/

/-- C3: a login with a correct secret that resolves to a record with
`isActive = false` or `isApproved = false` fails with the corresponding
account-not-usable error, and the run's only credential-service action is
the sign-out, performed before the error is surfaced (every action in
`trace` completes before `result` is returned). -/
theorem login_blocked_account_signs_out (env : Env) (dir : List User)
    (card pw : String) (u0 u : User) (tok : String)
    (hcard : UserService.getUserByCardNumber dir card = some u0)
    (hsign : env.signIn u0.email pw = SignInResult.ok tok)
    (hres : UserService.getUserByAuthUid dir tok = some u)
    (hblocked : u.isActive = false ∨ u.isApproved = false)
    (hso : env.signOutOk = true) :
    (AuthContext.login env dir card pw).trace = [AuthAction.signOut]
    ∧ ((AuthContext.login env dir card pw).result
        = Except.error "Your account has been deactivated"
      ∨ (AuthContext.login env dir card pw).result
        = Except.error "Your account is pending approval") := by
  have hA : AuthService.login env dir card pw = Except.ok tok := by
    unfold AuthService.login
    simp only [hcard]
    simp only [hsign]
  rcases hblocked with hb | hb
  · have hrun : AuthContext.login env dir card pw =
        { trace := [AuthAction.signOut]
          result := Except.error "Your account has been deactivated" } := by
      unfold AuthContext.login
      simp only [hA]
      simp only [hres]
      simp [hb, hso]
    rw [hrun]
    exact ⟨rfl, Or.inl rfl⟩
  · cases ha : u.isActive
    · have hrun : AuthContext.login env dir card pw =
          { trace := [AuthAction.signOut]
            result := Except.error "Your account has been deactivated" } := by
        unfold AuthContext.login
        simp only [hA]
        simp only [hres]
        simp [ha, hso]
      rw [hrun]
      exact ⟨rfl, Or.inl rfl⟩
    · have hrun : AuthContext.login env dir card pw =
          { trace := [AuthAction.signOut]
            result := Except.error "Your account is pending approval" } := by
        unfold AuthContext.login
        simp only [hA]
        simp only [hres]
        simp [ha, hb, hso]
      rw [hrun]
      exact ⟨rfl, Or.inr rfl⟩

/-- C3 (witness): a pending (approved = false) student logging in with the
correct secret: the session is terminated and the pending-approval error
surfaces. -/
theorem login_blocked_account_signs_out_witness :
    (AuthContext.login envLogin [userB] "C-002" "pw").trace = [AuthAction.signOut]
    ∧ ((AuthContext.login envLogin [userB] "C-002" "pw").result
        = Except.error "Your account has been deactivated"
      ∨ (AuthContext.login envLogin [userB] "C-002" "pw").result
        = Except.error "Your account is pending approval") := by
  have h := login_blocked_account_signs_out envLogin [userB] "C-002" "pw" userB userB "a2"
    (by decide) (by decide) (by decide) (Or.inr (by decide)) (by decide)
  exact h

/-!  ## C7 — failing logins are indistinguishable  -/

/-- Every failing-class run of `AuthService.login` surfaces the one generic
message. -/
theorem loginFailureClass_generic (env : Env) (dir : List User) (card pw : String)
    (h : loginFailureClass env dir card pw) :
    AuthService.login env dir card pw
      = Except.error "Invalid card number or password" := by
  unfold AuthService.login
  rcases h with h | ⟨u, m, hu, hs⟩ | ⟨u, code, m, hu, hs, hc⟩
  · rw [h]
  · simp only [hu]
    simp only [hs]
    have : AuthService.codeStartsWithAuth "auth/wrong-password" = true := by decide
    simp [this]
  · simp only [hu]
    simp only [hs]
    simp [hc]

/-- C7: any two failing login attempts from the three classes — unknown
card number, wrong secret, authentication-category credential error —
surface the same generic message, so the classes are indistinguishable
to the caller. -/
theorem login_failures_indistinguishable
    (env1 : Env) (dir1 : List User) (card1 pw1 : String)
    (env2 : Env) (dir2 : List User) (card2 pw2 : String)
    (h1 : loginFailureClass env1 dir1 card1 pw1)
    (h2 : loginFailureClass env2 dir2 card2 pw2) :
    AuthService.login env1 dir1 card1 pw1
      = Except.error "Invalid card number or password"
    ∧ AuthService.login env1 dir1 card1 pw1
      = AuthService.login env2 dir2 card2 pw2 := by
  have a1 := loginFailureClass_generic env1 dir1 card1 pw1 h1
  have a2 := loginFailureClass_generic env2 dir2 card2 pw2 h2
  exact ⟨a1, a1.trans a2.symm⟩

/-- C7 (witness): an unknown-card attempt and a wrong-secret attempt
surface the identical generic message. -/
theorem login_failures_indistinguishable_witness :
    AuthService.login envW [] "C-404" "x"
      = Except.error "Invalid card number or password"
    ∧ AuthService.login envW [] "C-404" "x"
      = AuthService.login envWrongPw [holderA] "C-001" "bad" := by
  have h := login_failures_indistinguishable envW [] "C-404" "x"
    envWrongPw [holderA] "C-001" "bad"
    (Or.inl (by decide))
    (Or.inr (Or.inl ⟨holderA, "Incorrect", by decide, by decide⟩))
  exact h

/-!  ## C10 — approval rights only for existing staff  -/

/-- C10: `grantApprovalRights`, `revokeApprovalRights` and
`toggleApprovalRights` fail without modifying the directory when the
target does not exist or is not staff, and each succeeds only for an
existing staff target — so `canApproveStudents` is only ever written for
an existing staff record. -/
theorem approvalRights_only_for_existing_staff (env : Env) (dir : List User)
    (uid : String) :
    (UserService.getUserByUid dir uid = none →
      AdminService.grantApprovalRights env dir uid = Except.error "User not found"
      ∧ AdminService.revokeApprovalRights env dir uid = Except.error "User not found"
      ∧ AdminService.toggleApprovalRights env dir uid = Except.error "User not found"
      ∧ finalDir dir (AdminService.grantApprovalRights env dir uid) = dir
      ∧ finalDir dir (AdminService.revokeApprovalRights env dir uid) = dir)
    ∧ (∀ u, UserService.getUserByUid dir uid = some u → ¬ u.role = UserRole.staff →
      AdminService.grantApprovalRights env dir uid
        = Except.error "Only staff members can be granted approval rights"
      ∧ AdminService.revokeApprovalRights env dir uid
        = Except.error "Only staff members have approval rights"
      ∧ AdminService.toggleApprovalRights env dir uid
        = Except.error "Only staff members can have approval rights"
      ∧ finalDir dir (AdminService.grantApprovalRights env dir uid) = dir
      ∧ finalDir dir (AdminService.revokeApprovalRights env dir uid) = dir)
    ∧ (∀ d2, AdminService.grantApprovalRights env dir uid = Except.ok d2 →
      ∃ u, UserService.getUserByUid dir uid = some u ∧ u.role = UserRole.staff)
    ∧ (∀ d2, AdminService.revokeApprovalRights env dir uid = Except.ok d2 →
      ∃ u, UserService.getUserByUid dir uid = some u ∧ u.role = UserRole.staff)
    ∧ (∀ b d2, AdminService.toggleApprovalRights env dir uid = Except.ok (b, d2) →
      ∃ u, UserService.getUserByUid dir uid = some u ∧ u.role = UserRole.staff) := by
  refine ⟨?_, ?_, ?_, ?_, ?_⟩
  · intro h
    have hg : AdminService.grantApprovalRights env dir uid
        = Except.error "User not found" := by
      unfold AdminService.grantApprovalRights
      rw [h]
    have hv : AdminService.revokeApprovalRights env dir uid
        = Except.error "User not found" := by
      unfold AdminService.revokeApprovalRights
      rw [h]
    have ht : AdminService.toggleApprovalRights env dir uid
        = Except.error "User not found" := by
      unfold AdminService.toggleApprovalRights
      rw [h]
    exact ⟨hg, hv, ht, by rw [hg]; rfl, by rw [hv]; rfl⟩
  · intro u hu hr
    have hg : AdminService.grantApprovalRights env dir uid
        = Except.error "Only staff members can be granted approval rights" := by
      unfold AdminService.grantApprovalRights
      simp only [hu]
      simp [hr]
    have hv : AdminService.revokeApprovalRights env dir uid
        = Except.error "Only staff members have approval rights" := by
      unfold AdminService.revokeApprovalRights
      simp only [hu]
      simp [hr]
    have ht : AdminService.toggleApprovalRights env dir uid
        = Except.error "Only staff members can have approval rights" := by
      unfold AdminService.toggleApprovalRights
      simp only [hu]
      simp [hr]
    exact ⟨hg, hv, ht, by rw [hg]; rfl, by rw [hv]; rfl⟩
  · intro d2 hok
    unfold AdminService.grantApprovalRights at hok
    rcases hu : UserService.getUserByUid dir uid with _ | u <;> rw [hu] at hok
    · cases hok
    · by_cases hr : u.role = UserRole.staff
      · exact ⟨u, rfl, hr⟩
      · simp [hr] at hok
  · intro d2 hok
    unfold AdminService.revokeApprovalRights at hok
    rcases hu : UserService.getUserByUid dir uid with _ | u <;> rw [hu] at hok
    · cases hok
    · by_cases hr : u.role = UserRole.staff
      · exact ⟨u, rfl, hr⟩
      · simp [hr] at hok
  · intro b d2 hok
    unfold AdminService.toggleApprovalRights at hok
    rcases hu : UserService.getUserByUid dir uid with _ | u <;> rw [hu] at hok
    · cases hok
    · by_cases hr : u.role = UserRole.staff
      · exact ⟨u, rfl, hr⟩
      · simp [hr] at hok

/-- C10 (witness): the theorem applied at a student target — all three
operations refuse and leave the directory unchanged. -/
theorem approvalRights_only_for_existing_staff_witness :
    AdminService.grantApprovalRights envW [userB] "u2"
      = Except.error "Only staff members can be granted approval rights"
    ∧ AdminService.toggleApprovalRights envW [userB] "u2"
      = Except.error "Only staff members can have approval rights"
    ∧ finalDir [userB] (AdminService.grantApprovalRights envW [userB] "u2") = [userB] := by
  have h := (approvalRights_only_for_existing_staff envW [userB] "u2").2.1 userB
    (by decide) (by decide)
  exact ⟨h.1, h.2.2.1, h.2.2.2.1⟩

/-!  ## C4 — staff approval is permission- and department-scoped  -/

/-- C4: for a staff actor, approval fails with a permission error and the
directory (hence the target's `isApproved`) is unchanged when the actor
lacks `canApproveStudents`, when the target is not a student, or when the
target is a student of another department; and a successful approval
implies the actor had `canApproveStudents`, the target was a student, and
the departments matched. -/
theorem approveStudent_permission_scoping (env : Env) (dir : List User)
    (staffUser : User) (studentUid : String)
    (hrole : staffUser.role = UserRole.staff) :
    (truthy staffUser.canApproveStudents = false →
      StaffService.approveStudent env dir staffUser studentUid
        = Except.error "You do not have permission to approve students"
      ∧ finalDir dir (StaffService.approveStudent env dir staffUser studentUid) = dir)
    ∧ (∀ t, UserService.getUserByUid dir studentUid = some t →
      truthy staffUser.canApproveStudents = true → ¬ t.role = UserRole.student →
      StaffService.approveStudent env dir staffUser studentUid
        = Except.error "Can only approve students"
      ∧ finalDir dir (StaffService.approveStudent env dir staffUser studentUid) = dir)
    ∧ (∀ t, UserService.getUserByUid dir studentUid = some t →
      truthy staffUser.canApproveStudents = true → t.role = UserRole.student →
      ¬ t.department = staffUser.department →
      StaffService.approveStudent env dir staffUser studentUid
        = Except.error "Can only approve students in your department"
      ∧ finalDir dir (StaffService.approveStudent env dir staffUser studentUid) = dir)
    ∧ (∀ d2, StaffService.approveStudent env dir staffUser studentUid = Except.ok d2 →
      truthy staffUser.canApproveStudents = true
      ∧ ∃ t, UserService.getUserByUid dir studentUid = some t
          ∧ t.role = UserRole.student ∧ t.department = staffUser.department) := by
  refine ⟨?_, ?_, ?_, ?_⟩
  · intro hperm
    have hres : StaffService.approveStudent env dir staffUser studentUid
        = Except.error "You do not have permission to approve students" := by
      unfold StaffService.approveStudent
      simp [hrole, hperm]
    exact ⟨hres, by rw [hres]; rfl⟩
  · intro t ht hperm hstud
    have hres : StaffService.approveStudent env dir staffUser studentUid
        = Except.error "Can only approve students" := by
      unfold StaffService.approveStudent
      simp only [hrole, hperm]
      simp only [ht]
      simp [hstud]
    exact ⟨hres, by rw [hres]; rfl⟩
  · intro t ht hperm hstud hdept
    have hres : StaffService.approveStudent env dir staffUser studentUid
        = Except.error "Can only approve students in your department" := by
      unfold StaffService.approveStudent
      simp only [hrole, hperm]
      simp only [ht]
      simp [hstud, hdept]
    exact ⟨hres, by rw [hres]; rfl⟩
  · intro d2 hok
    unfold StaffService.approveStudent at hok
    simp only [hrole] at hok
    by_cases hperm : truthy staffUser.canApproveStudents
    · refine ⟨hperm, ?_⟩
      simp only [hperm] at hok
      rcases ht : UserService.getUserByUid dir studentUid with _ | t <;> rw [ht] at hok
      · simp at hok
      · by_cases hstud : t.role = UserRole.student
        · by_cases hdept : t.department = staffUser.department
          · exact ⟨t, rfl, hstud, hdept⟩
          · simp [hstud, hdept] at hok
        · simp [hstud] at hok
    · rw [Bool.not_eq_true] at hperm
      simp [hperm] at hok

/-- C4 (witness): staff of department CS with approval rights tries to
approve a student of department EE — permission error, and the directory
(so the student's `isApproved`) is unchanged. -/
theorem approveStudent_permission_scoping_witness :
    StaffService.approveStudent envW [staffX, studentY] staffX "y1"
      = Except.error "Can only approve students in your department"
    ∧ finalDir [staffX, studentY]
        (StaffService.approveStudent envW [staffX, studentY] staffX "y1")
      = [staffX, studentY] := by
  have h := (approveStudent_permission_scoping envW [staffX, studentY] staffX "y1"
    (by decide)).2.2.1 studentY (by decide) (by decide) (by decide) (by decide)
  exact h

/-!  ## C5 — bulk operations isolate per-id failures  -/

/-- Mapping a record transformation that preserves `uid` does not change
which uids are present. -/
theorem any_uid_map (dir : List User) (f : User → User)
    (hf : ∀ u, (f u).uid = u.uid) (x : String) :
    ((dir.map f).any (fun u => u.uid = x)) = dir.any (fun u => u.uid = x) := by
  induction dir with
  | nil => rfl
  | cons a t ih => simp only [List.map_cons, List.any_cons, ih, hf]

/-- `approveOk` is stable under uid-preserving record transformations. -/
theorem approveOk_map (env : Env) (dir : List User) (f : User → User)
    (hf : ∀ u, (f u).uid = u.uid) (x : String) :
    approveOk env (dir.map f) x = approveOk env dir x := by
  unfold approveOk
  rw [any_uid_map dir f hf x]

/-- Closed form of `UserService.approveUser`: it succeeds exactly when the
document exists and the write does not fail, and then sets `isApproved`
on the matching record. -/
theorem approveUser_spec (env : Env) (dir : List User) (uid : String) :
    UserService.approveUser env dir uid =
      if approveOk env dir uid then
        Except.ok (dir.map (fun u =>
          if u.uid = uid then { u with isApproved := true } else u))
      else Except.error "Failed to approve user" := by
  unfold UserService.approveUser UserService.updateUser
  cases h : approveOk env dir uid
  · rw [if_neg (by rw [show (dir.any (fun u => u.uid = uid) && !(env.updateFails uid)) = approveOk env dir uid from rfl, h]; simp)]
    rfl
  · rw [if_pos (by rw [show (dir.any (fun u => u.uid = uid) && !(env.updateFails uid)) = approveOk env dir uid from rfl, h])]
    have hfun : (fun u : User =>
        if u.uid = uid then UserService.applyUpdate u { isApproved := some true } else u)
        = (fun u : User => if u.uid = uid then { u with isApproved := true } else u) := by
      funext u
      by_cases hu : u.uid = uid
      · rw [if_pos hu, if_pos hu]
        rfl
      · rw [if_neg hu, if_neg hu]
    rw [hfun]
    rfl

/-- `AdminService.approveStep` is the ungated instance. -/
theorem approveStep_eq_gatedStep (env : Env) :
    AdminService.approveStep env = gatedStep env (fun _ => true) := by
  funext acc uid
  simp [AdminService.approveStep, gatedStep]

/-- `StaffService.staffApproveStep` is the department-gated instance. -/
theorem staffApproveStep_eq_gatedStep (env : Env) (deptIds : List String) :
    StaffService.staffApproveStep env deptIds
      = gatedStep env (fun uid => deptIds.contains uid) := by
  funext acc uid
  unfold StaffService.staffApproveStep gatedStep
  by_cases h : deptIds.contains uid <;> simp [h]

/-- Closed form of a gated bulk fold: the counters count the ids that pass
the gate and can be approved against the initial directory, and the final
directory approves exactly the present ids that pass the gate, appear in
the list and whose write does not fail.  Because each step preserves the
uids present, success of an id does not depend on the position or fate of
any other id — the per-id failure domains are isolated. -/
theorem gatedStep_foldl_spec (env : Env) (gate : String → Bool)
    (uids : List String) :
    ∀ acc : AdminService.BulkAcc,
      (uids.foldl (gatedStep env gate) acc).success
        = acc.success + (uids.filter (fun id => gate id && approveOk env acc.dir id)).length
      ∧ (uids.foldl (gatedStep env gate) acc).failed
        = acc.failed + (uids.filter (fun id => !(gate id && approveOk env acc.dir id))).length
      ∧ (uids.foldl (gatedStep env gate) acc).dir
        = acc.dir.map (fun u =>
            if gate u.uid && uids.contains u.uid && !(env.updateFails u.uid)
            then { u with isApproved := true } else u) := by
  induction uids with
  | nil =>
    intro acc
    refine ⟨by simp, by simp, ?_⟩
    simp only [List.foldl_nil]
    have h0 : ∀ u ∈ acc.dir,
        (if gate u.uid && ([] : List String).contains u.uid && !(env.updateFails u.uid)
          then { u with isApproved := true } else u) = u := by
      intro u _
      simp
    rw [List.map_congr_left h0]
    simp
  | cons id rest ih =>
    intro acc
    rw [List.foldl_cons]
    cases hg : gate id
    · have hstep : gatedStep env gate acc id = { acc with failed := acc.failed + 1 } := by
        unfold gatedStep
        rw [if_neg (by rw [hg]; simp)]
      rw [hstep]
      obtain ⟨ihs, ihf, ihd⟩ := ih { acc with failed := acc.failed + 1 }
      refine ⟨?_, ?_, ?_⟩
      · rw [ihs, List.filter_cons]
        simp [hg]
      · rw [ihf, List.filter_cons]
        simp [hg]
        omega
      · rw [ihd]
        apply List.map_congr_left
        intro u hu
        by_cases he : u.uid = id
        · rw [he, hg]
          simp
        · have hc : ((id :: rest).contains u.uid) = rest.contains u.uid := by
            simp [List.contains_cons, he]
          rw [hc]
    · cases hok : approveOk env acc.dir id
      · have hstep : gatedStep env gate acc id = { acc with failed := acc.failed + 1 } := by
          unfold gatedStep
          rw [if_pos (by rw [hg]), approveUser_spec, if_neg (by rw [hok]; simp)]
        rw [hstep]
        obtain ⟨ihs, ihf, ihd⟩ := ih { acc with failed := acc.failed + 1 }
        refine ⟨?_, ?_, ?_⟩
        · rw [ihs, List.filter_cons]
          simp [hg, hok]
        · rw [ihf, List.filter_cons]
          simp [hg, hok]
          omega
        · rw [ihd]
          apply List.map_congr_left
          intro u hu
          by_cases he : u.uid = id
          · have hany : acc.dir.any (fun v => v.uid = id) = true :=
              List.any_eq_true.mpr ⟨u, hu, by simp [he]⟩
            have hfails : (!(env.updateFails id)) = false := by
              unfold approveOk at hok
              rw [hany] at hok
              simpa using hok
            rw [he, hfails]
            simp
          · have hc : ((id :: rest).contains u.uid) = rest.contains u.uid := by
              simp [List.contains_cons, he]
            rw [hc]
      · have hstep : gatedStep env gate acc id
            = { acc with
                success := acc.success + 1
                dir := acc.dir.map (fun u =>
                  if u.uid = id then { u with isApproved := true } else u) } := by
          unfold gatedStep
          rw [if_pos (by rw [hg]), approveUser_spec, if_pos (by rw [hok])]
        rw [hstep]
        obtain ⟨ihs, ihf, ihd⟩ := ih { acc with
          success := acc.success + 1
          dir := acc.dir.map (fun u =>
            if u.uid = id then { u with isApproved := true } else u) }
        have hpred : ∀ i ∈ rest,
            (gate i && approveOk env (acc.dir.map (fun u =>
              if u.uid = id then { u with isApproved := true } else u)) i)
            = (gate i && approveOk env acc.dir i) := by
          intro i _
          rw [approveOk_map env acc.dir _ (fun u => by by_cases h : u.uid = id <;> simp [h]) i]
        refine ⟨?_, ?_, ?_⟩
        · rw [ihs, List.filter_congr hpred, List.filter_cons]
          simp [hg, hok]
          omega
        · rw [ihf]
          have hpredn : ∀ i ∈ rest,
              (!(gate i && approveOk env (acc.dir.map (fun u =>
                if u.uid = id then { u with isApproved := true } else u)) i))
              = (!(gate i && approveOk env acc.dir i)) := by
            intro i hi
            rw [hpred i hi]
          rw [List.filter_congr hpredn, List.filter_cons]
          simp [hg, hok]
        · rw [ihd, List.map_map]
          apply List.map_congr_left
          intro u hu
          simp only [Function.comp_apply]
          by_cases he : u.uid = id
          · have hfails : (!(env.updateFails id)) = true := by
              unfold approveOk at hok
              simp only [Bool.and_eq_true] at hok
              exact hok.2
            rw [if_pos he]
            have huid : ({ u with isApproved := true } : User).uid = u.uid := rfl
            rw [he] at huid ⊢
            rw [hg, hfails]
            cases hr : rest.contains ({ u with isApproved := true } : User).uid <;>
              simp [huid, hr, List.contains_cons]
          · rw [if_neg he]
            have hc : ((id :: rest).contains u.uid) = rest.contains u.uid := by
              simp [List.contains_cons, he]
            rw [hc]

/-- C5: over N ids of which exactly K fail — an id fails in `approveBulk`
when its document cannot be updated, and in `approveStudentsBulk` also
when it is filtered out as outside the actor's department — the bulk
operations return success = N − K and failed = K, and the per-id
operation is applied to every non-failing id (each such record ends up
approved); no id's failure aborts the others. -/
theorem bulk_approval_isolated_failures (env : Env) (dir : List User)
    (uids : List String) (staffUser : User)
    (hperm : truthy staffUser.canApproveStudents = true) :
    ((AdminService.approveBulk env dir uids).success
        = uids.length - (uids.filter (fun id => !(approveOk env dir id))).length
      ∧ (AdminService.approveBulk env dir uids).failed
        = (uids.filter (fun id => !(approveOk env dir id))).length
      ∧ ∀ u ∈ (AdminService.approveBulk env dir uids).dir,
          uids.contains u.uid = true → approveOk env dir u.uid = true →
          u.isApproved = true)
    ∧ (StaffService.approveStudentsBulk env dir staffUser uids
        = Except.ok (staffBulkRun env dir staffUser uids)
      ∧ (staffBulkRun env dir staffUser uids).success
        = uids.length - (uids.filter (fun id =>
            !((StaffService.departmentStudentIds dir staffUser).contains id
              && approveOk env dir id))).length
      ∧ (staffBulkRun env dir staffUser uids).failed
        = (uids.filter (fun id =>
            !((StaffService.departmentStudentIds dir staffUser).contains id
              && approveOk env dir id))).length
      ∧ ∀ u ∈ (staffBulkRun env dir staffUser uids).dir,
          uids.contains u.uid = true →
          (StaffService.departmentStudentIds dir staffUser).contains u.uid = true →
          approveOk env dir u.uid = true →
          u.isApproved = true) := by
  constructor
  · have hb : AdminService.approveBulk env dir uids
        = uids.foldl (gatedStep env (fun _ => true))
            { success := 0, failed := 0, dir := dir } := by
      unfold AdminService.approveBulk
      rw [approveStep_eq_gatedStep]
    obtain ⟨hs, hf, hd⟩ := gatedStep_foldl_spec env (fun _ => true) uids
      { success := 0, failed := 0, dir := dir }
    simp only [Bool.true_and] at hs hf hd
    have hlen := List.length_eq_length_filter_add
      (l := uids) (fun id => approveOk env dir id)
    refine ⟨?_, ?_, ?_⟩
    · rw [hb, hs]
      omega
    · rw [hb, hf]
      omega
    · intro u hu hc hok2
      rw [hb, hd] at hu
      obtain ⟨v, hv, rfl⟩ := List.mem_map.mp hu
      have huid : (if (uids.contains v.uid && !(env.updateFails v.uid)) = true
          then ({ v with isApproved := true } : User) else v).uid = v.uid := by
        split <;> rfl
      rw [huid] at hc hok2
      cases hcnd : (uids.contains v.uid && !(env.updateFails v.uid))
      · exfalso
        simp only [approveOk, Bool.and_eq_true] at hok2
        rw [hc, hok2.2] at hcnd
        simp at hcnd
      · simp [hcnd]
  · have hres : StaffService.approveStudentsBulk env dir staffUser uids
        = Except.ok (staffBulkRun env dir staffUser uids) := by
      unfold StaffService.approveStudentsBulk staffBulkRun
      rw [if_neg (by rw [hperm]; simp)]
    have hb : staffBulkRun env dir staffUser uids
        = uids.foldl
            (gatedStep env (fun uid =>
              (StaffService.departmentStudentIds dir staffUser).contains uid))
            { success := 0, failed := 0, dir := dir } := by
      unfold staffBulkRun
      rw [staffApproveStep_eq_gatedStep]
    obtain ⟨hs, hf, hd⟩ := gatedStep_foldl_spec env
      (fun uid => (StaffService.departmentStudentIds dir staffUser).contains uid) uids
      { success := 0, failed := 0, dir := dir }
    dsimp only at hs hf hd
    have hlen := List.length_eq_length_filter_add
      (l := uids) (fun id =>
        (StaffService.departmentStudentIds dir staffUser).contains id
          && approveOk env dir id)
    refine ⟨hres, ?_, ?_, ?_⟩
    · rw [hb, hs]
      omega
    · rw [hb, hf]
      omega
    · intro u hu hc hdept hok2
      rw [hb, hd] at hu
      obtain ⟨v, hv, rfl⟩ := List.mem_map.mp hu
      have huid : (if ((StaffService.departmentStudentIds dir staffUser).contains v.uid
            && uids.contains v.uid && !(env.updateFails v.uid)) = true
          then ({ v with isApproved := true } : User) else v).uid = v.uid := by
        split <;> rfl
      rw [huid] at hc hdept hok2
      cases hcnd : ((StaffService.departmentStudentIds dir staffUser).contains v.uid
          && uids.contains v.uid && !(env.updateFails v.uid))
      · exfalso
        simp only [approveOk, Bool.and_eq_true] at hok2
        rw [hc, hdept, hok2.2] at hcnd
        simp at hcnd
      · simp [hcnd]

/-- C5 (witness): the theorem applied at concrete batches — an admin batch
of 2 ids with 1 unknown id gives 1/1, and a staff batch of 3 ids with one
out-of-department id gives 2/1, the out-of-scope id counted as a failure
without aborting the others. -/
theorem bulk_approval_isolated_failures_witness :
    (AdminService.approveBulk envW dirW5 ["c1", "zz"]).success = 1
    ∧ (AdminService.approveBulk envW dirW5 ["c1", "zz"]).failed = 1
    ∧ StaffService.approveStudentsBulk envW dirW5 staffX ["c1", "c2", "y1"]
        = Except.ok (staffBulkRun envW dirW5 staffX ["c1", "c2", "y1"])
    ∧ (staffBulkRun envW dirW5 staffX ["c1", "c2", "y1"]).success = 2
    ∧ (staffBulkRun envW dirW5 staffX ["c1", "c2", "y1"]).failed = 1 := by
  have h1 := bulk_approval_isolated_failures envW dirW5 ["c1", "zz"] staffX (by decide)
  have h2 := bulk_approval_isolated_failures envW dirW5 ["c1", "c2", "y1"] staffX (by decide)
  exact ⟨h1.1.1.trans (by decide), h1.1.2.1.trans (by decide), h2.2.1,
    h2.2.2.1.trans (by decide), h2.2.2.2.1.trans (by decide)⟩
